import Mathlib

/-!
Verification of the levity persistence layer (`src/db`).

The Go code is shallowly embedded: each SQL table becomes a Lean list of row
structures, each repository method becomes a pure function on an explicit
database state, and `CURRENT_TIMESTAMP` becomes the state's `now` field.
SQL `TEXT` is `String`, SQL `INTEGER` is `Int`, `DATETIME` is an abstract
instant `Nat`, and nullable columns are `Option`.  Fallible operations return
`Except DBError _`; I/O-level storage failures have no source in a pure state
and are therefore not modelled, but the distinction the code draws between
`sql.ErrNoRows` handling (mapped to `NotFound`-style errors or to a `none`
result) is kept exactly.
-/

namespace Levity

/-- Row of the `transactions` table (struct `Transaction` in src/db/database.go).
`transaction_id` is the external OCPP identifier (`*int` in Go, nullable in SQL). -/
structure Transaction where
  id : Nat
  transaction_id : Option Int
  charger_id : String
  connector_id : Int
  id_tag : String
  start_time : Nat
  stop_time : Option Nat
  meter_start : Int
  meter_stop : Option Int
  energy_delivered : Int
  stop_reason : Option String
  status : String
  created_at : Nat
  updated_at : Nat
  deriving Repr, DecidableEq

/-- Row of the `meter_values` table (struct `MeterValue` in src/db/database.go).
The source stores `value` as `float64`; it is modelled as `Int` because no
claim depends on floating-point arithmetic, only on which row is selected. -/
structure MeterValue where
  id : Nat
  transaction_id : Option Nat
  charger_id : String
  connector_id : Int
  timestamp : Nat
  measurand : String
  value : Int
  unit : String
  context : String
  location : String
  phase : String
  format : String
  created_at : Nat
  deriving Repr, DecidableEq

/-- Row of the `charger_errors` table (struct `ChargerError` in src/db/database.go). -/
structure ChargerError where
  id : Nat
  charger_id : String
  connector_id : Option Int
  error_code : String
  vendor_error_code : String
  error_description : String
  vendor_error_info : String
  timestamp : Nat
  resolved_at : Option Nat
  created_at : Nat
  deriving Repr, DecidableEq

/-- Row of the `chargers` table (struct `Charger` in src/db/database.go). -/
structure Charger where
  id : String
  name : String
  vendor : String
  model : String
  serial_number : String
  firmware_version : String
  iccid : String
  imsi : String
  status : String
  is_connected : Bool
  last_heartbeat_at : Option Nat
  last_boot_at : Option Nat
  last_connect_at : Option Nat
  last_tx_start_at : Option Nat
  last_tx_stop_at : Option Nat
  created_at : Nat
  updated_at : Nat
  deriving Repr, DecidableEq

/-- Embedded from `CreateTransactionRequest` (src/db/database.go). -/
structure CreateTransactionRequest where
  transaction_id : Option Int
  charger_id : String
  connector_id : Int
  id_tag : String
  meter_start : Int
  deriving Repr, DecidableEq

/-- Embedded from `UpdateTransactionRequest` (src/db/database.go): tagged-optional per field. -/
structure UpdateTransactionRequest where
  meter_stop : Option Int := none
  stop_time : Option Nat := none
  energy_delivered : Option Int := none
  stop_reason : Option String := none
  status : Option String := none
  deriving Repr, DecidableEq

/-- Embedded from `UpdateChargerRequest` (src/db/database.go): tagged-optional per field. -/
structure UpdateChargerRequest where
  name : Option String := none
  vendor : Option String := none
  model : Option String := none
  serial_number : Option String := none
  firmware_version : Option String := none
  iccid : Option String := none
  imsi : Option String := none
  status : Option String := none
  is_connected : Option Bool := none
  deriving Repr, DecidableEq

/-- Embedded from `ListOptions` (src/db/database.go). -/
structure ListOptions where
  limit : Int
  offset : Int
  orderBy : String
  sortDir : String
  deriving Repr, DecidableEq

/-- Errors surfaced by the embedded repository operations.  The Go code builds
them with `fmt.Errorf`; each constructor mirrors one distinct failure site. -/
inductive DBError where
  | txNotFound (id : Nat)
  | chargerNotFound (id : String)
  | chargerErrorNotFound (id : Nat)
  | meterStartQueryFailed (id : Nat)
  | idExhausted
  | connectorBusy
  | dirtyState
  deriving Repr, DecidableEq

/-- The embedded database: one list per table, the transactions sequence
counter, and the current instant used for `CURRENT_TIMESTAMP`. -/
structure DBState where
  transactions : List Transaction
  meterValues : List MeterValue
  chargerErrors : List ChargerError
  chargers : List Charger
  nextTxId : Nat
  now : Nat
  deriving Repr, DecidableEq

/-- Embedded from `ORDER BY key DESC LIMIT 1`: the row with the maximal key (first such row
on ties, matching a stable scan). -/
def maxBy (key : α → Nat) : List α → Option α
  | [] => none
  | a :: l =>
    match maxBy key l with
    | none => some a
    | some b => if key b > key a then some b else some a

theorem maxBy_eq_none_iff (key : α → Nat) (l : List α) :
    maxBy key l = none ↔ l = [] := by
  cases l with
  | nil => simp [maxBy]
  | cons a l =>
    simp only [maxBy]
    cases maxBy key l with
    | none => simp
    | some b => by_cases h : key b > key a <;> simp [h]

theorem maxBy_mem (key : α → Nat) (l : List α) (a : α)
    (h : maxBy key l = some a) : a ∈ l := by
  induction l with
  | nil => simp [maxBy] at h
  | cons b l ih =>
    simp only [maxBy] at h
    cases hm : maxBy key l with
    | none => rw [hm] at h; simp_all
    | some c =>
      rw [hm] at h
      by_cases hk : key c > key b
      · simp only [hk, if_pos] at h
        exact List.mem_cons_of_mem _ (ih (h ▸ hm))
      · simp only [hk, if_neg, not_false_iff] at h
        simp_all

/-- The `WHERE charger_id = ? AND connector_id = ? AND status = 'Active'`
filter of `transactionRepository.GetActiveByConnector`. -/
def activeOnConnector (txs : List Transaction) (chargerID : String)
    (connectorID : Int) : List Transaction :=
  txs.filter fun t =>
    t.charger_id == chargerID && t.connector_id == connectorID &&
      t.status == "Active"

/-- Embedded from `transactionRepository.GetActiveByConnector`
(src/db/repository_manager.go): selects the Active row for the pair with the
latest `start_time` (`ORDER BY start_time DESC LIMIT 1`); `sql.ErrNoRows` is
mapped to a `nil` transaction with a `nil` error, i.e. `.ok none`. -/
def GetActiveByConnector (s : DBState) (chargerID : String)
    (connectorID : Int) : Except DBError (Option Transaction) :=
  match maxBy (·.start_time) (activeOnConnector s.transactions chargerID connectorID) with
  | none => .ok none
  | some t => .ok (some t)

/-- Embedded from `meterValueRepository.GetLatestByConnector` (src/db/other_repositories.go):
latest sample for the pair (`ORDER BY timestamp DESC LIMIT 1`);
`sql.ErrNoRows` is mapped to `.ok none`. -/
def GetLatestByConnector (s : DBState) (chargerID : String)
    (connectorID : Int) : Except DBError (Option MeterValue) :=
  match maxBy (·.timestamp)
      (s.meterValues.filter fun mv =>
        mv.charger_id == chargerID && mv.connector_id == connectorID) with
  | none => .ok none
  | some mv => .ok (some mv)

/-- Embedded from `transactionRepository.GetByID` (src/db/repository_manager.go):
`sql.ErrNoRows` becomes the `transaction not found` error. -/
def TxGetByID (s : DBState) (id : Nat) : Except DBError Transaction :=
  match s.transactions.find? (fun t => t.id == id) with
  | none => .error (.txNotFound id)
  | some t => .ok t

/-- Row rewrite of the `UPDATE transactions SET ... WHERE id = ?` statement
inside `transactionRepository.Stop`: the addressed row receives the stop
fields, every other row is untouched. -/
def stopRow (meterStop : Int) (stopTime : Nat) (stopReason : String)
    (energyDelivered : Int) (now : Nat) (id : Nat) (v : Transaction) :
    Transaction :=
  if v.id == id then
    { v with
      meter_stop := some meterStop
      stop_time := some stopTime
      stop_reason := some stopReason
      energy_delivered := energyDelivered
      status := "Completed"
      updated_at := now }
  else v

/-- Embedded from `transactionRepository.Stop` (src/db/repository_manager.go): read
`meter_start`, compute delivered energy clamped at zero, then update
stop meter/time/reason, energy, status `Completed` and `updated_at` in place. -/
def TxStop (s : DBState) (id : Nat) (meterStop : Int) (stopTime : Nat)
    (stopReason : String) : Except DBError DBState :=
  match s.transactions.find? (fun t => t.id == id) with
  | none => .error (.meterStartQueryFailed id)
  | some t =>
    let meterStart := t.meter_start
    let energyDelivered :=
      if meterStop - meterStart < 0 then 0 else meterStop - meterStart
    .ok { s with
      transactions := s.transactions.map
        (stopRow meterStop stopTime stopReason energyDelivered s.now id) }

/-- Whether an `UpdateTransactionRequest` supplies no field
(Go: `len(setParts) == 0`). -/
def UpdateTransactionRequest.isEmpty (req : UpdateTransactionRequest) : Bool :=
  req.meter_stop.isNone && req.stop_time.isNone &&
    req.energy_delivered.isNone && req.stop_reason.isNone && req.status.isNone

/-- The `SET` clause of `transactionRepository.Update` applied to one row:
each supplied field is written, unset fields are preserved, and `updated_at`
is always refreshed. -/
def applyTxUpdate (req : UpdateTransactionRequest) (now : Nat)
    (t : Transaction) : Transaction :=
  { t with
    meter_stop := match req.meter_stop with
      | some v => some v
      | none => t.meter_stop
    stop_time := match req.stop_time with
      | some v => some v
      | none => t.stop_time
    energy_delivered := match req.energy_delivered with
      | some v => v
      | none => t.energy_delivered
    stop_reason := match req.stop_reason with
      | some v => some v
      | none => t.stop_reason
    status := match req.status with
      | some v => v
      | none => t.status
    updated_at := now }

/-- Embedded from `transactionRepository.Update` (src/db/repository_manager.go): with no
supplied field it falls back to `GetByID` (read-only); otherwise it updates
the supplied fields plus `updated_at` and returns the rewritten row. -/
def TxUpdate (s : DBState) (id : Nat) (req : UpdateTransactionRequest) :
    Except DBError (Transaction × DBState) :=
  if req.isEmpty then
    match TxGetByID s id with
    | .error e => .error e
    | .ok t => .ok (t, s)
  else
    match s.transactions.find? (fun t => t.id == id) with
    | none => .error (.txNotFound id)
    | some t =>
      .ok (applyTxUpdate req s.now t,
        { s with
          transactions := s.transactions.map fun u =>
            if u.id == id then applyTxUpdate req s.now u else u })

/-- Embedded from `chargerRepository.GetByID` (src/db/charger_repository.go). -/
def ChargerGetByID (s : DBState) (id : String) : Except DBError Charger :=
  match s.chargers.find? (fun c => c.id == id) with
  | none => .error (.chargerNotFound id)
  | some c => .ok c

/-- Whether an `UpdateChargerRequest` supplies no field. -/
def UpdateChargerRequest.isEmpty (req : UpdateChargerRequest) : Bool :=
  req.name.isNone && req.vendor.isNone && req.model.isNone &&
    req.serial_number.isNone && req.firmware_version.isNone &&
    req.iccid.isNone && req.imsi.isNone && req.status.isNone &&
    req.is_connected.isNone

/-- The `SET` clause of `chargerRepository.Update` applied to one row. -/
def applyChargerUpdate (req : UpdateChargerRequest) (now : Nat)
    (c : Charger) : Charger :=
  { c with
    name := req.name.getD c.name
    vendor := req.vendor.getD c.vendor
    model := req.model.getD c.model
    serial_number := req.serial_number.getD c.serial_number
    firmware_version := req.firmware_version.getD c.firmware_version
    iccid := req.iccid.getD c.iccid
    imsi := req.imsi.getD c.imsi
    status := req.status.getD c.status
    is_connected := req.is_connected.getD c.is_connected
    updated_at := now }

/-- Embedded from `chargerRepository.Update` (src/db/charger_repository.go): same partial-
update shape as the transaction repository. -/
def ChargerUpdate (s : DBState) (id : String) (req : UpdateChargerRequest) :
    Except DBError (Charger × DBState) :=
  if req.isEmpty then
    match ChargerGetByID s id with
    | .error e => .error e
    | .ok c => .ok (c, s)
  else
    match s.chargers.find? (fun c => c.id == id) with
    | none => .error (.chargerNotFound id)
    | some c =>
      .ok (applyChargerUpdate req s.now c,
        { s with
          chargers := s.chargers.map fun u =>
            if u.id == id then applyChargerUpdate req s.now u else u })

/-- Embedded from `chargerErrorRepository.Resolve` (src/db/other_repositories.go):
`UPDATE charger_errors SET resolved_at = ? WHERE id = ?` — note the absence of
any `resolved_at IS NULL` guard; zero affected rows is the not-found error. -/
def ErrResolve (s : DBState) (id : Nat) (resolvedAt : Nat) :
    Except DBError DBState :=
  if s.chargerErrors.any (fun e => e.id == id) then
    .ok { s with
      chargerErrors := s.chargerErrors.map fun e =>
        if e.id == id then { e with resolved_at := some resolvedAt } else e }
  else .error (.chargerErrorNotFound id)

/-- The `WHERE charger_id = ? AND error_code = ? AND resolved_at IS NULL`
predicate of `chargerErrorRepository.ResolveByErrorCode`. -/
def unresolvedMatch (chargerID errorCode : String) (e : ChargerError) : Bool :=
  e.charger_id == chargerID && e.error_code == errorCode &&
    e.resolved_at == none

/-- Embedded from `chargerErrorRepository.ResolveByErrorCode` (src/db/other_repositories.go):
bulk-resolves the currently-unresolved errors of that code for that charger
and returns the affected-row count. -/
def ResolveByErrorCode (s : DBState) (chargerID errorCode : String)
    (resolvedAt : Nat) : Nat × DBState :=
  ((s.chargerErrors.filter (unresolvedMatch chargerID errorCode)).length,
    { s with
      chargerErrors := s.chargerErrors.map fun e =>
        if unresolvedMatch chargerID errorCode e then
          { e with resolved_at := some resolvedAt }
        else e })

/-- Embedded from `ListOptions.ValidateSortDirection` (src/db/database.go): anything other
than the two literal directions is replaced by `DESC`. -/
def ValidateSortDirection (sortDir : String) : String :=
  if sortDir != "ASC" && sortDir != "DESC" then "DESC" else sortDir

/-- The `validOrderFields` allow-list of `transactionRepository.List`
(src/db/repository_manager.go). -/
def txListValidOrderFields : List String :=
  ["id", "transaction_id", "charger_id", "connector_id",
   "id_tag", "start_time", "stop_time", "status",
   "created_at", "updated_at"]

/-- The `ORDER BY` fragment `transactionRepository.List` interpolates into its
query: the validated direction, and the requested column only if it is on the
allow-list, otherwise the safe default `created_at`. -/
def txListOrderClause (opts : ListOptions) : String × String :=
  let sortDir := ValidateSortDirection opts.sortDir
  let orderBy :=
    if txListValidOrderFields.contains opts.orderBy then opts.orderBy
    else "created_at"
  (orderBy, sortDir)

/-- The environment of one `GenerateTransactionID` call: what
`time.Now().Unix()`, `rand.Int31n(1000)` and the second `time.Now().Unix()`
of the non-positive fix-up return on attempt `i`, and whether the uniqueness
`COUNT` query fails on attempt `i`. -/
structure TxIdEnv where
  nowUnix : Nat → Int
  randComp : Nat → Int
  nowUnixRetry : Nat → Int
  checkFails : Nat → Bool

/-- The candidate identifier built on attempt `i` of
`transactionRepository.GenerateTransactionID`: `now*1000 + random`, replaced
by `time.Now().Unix() % 2147483647` when non-positive. -/
def candidateAt (env : TxIdEnv) (i : Nat) : Int :=
  let c := env.nowUnix i * 1000 + env.randComp i
  if c ≤ 0 then env.nowUnixRetry i % 2147483647 else c

/-- Embedded from `SELECT COUNT(*) FROM transactions WHERE transaction_id = ?` is nonzero. -/
def usedTxId (txs : List Transaction) (c : Int) : Bool :=
  txs.any fun t => t.transaction_id == some c

/-- The retry loop of `GenerateTransactionID`, with `attempts` the Go loop
counter and `fuel` the remaining iterations (`10 - attempts`): a failing
uniqueness check or a collision consumes the attempt; an unused candidate is
returned; running out of attempts is the exhaustion error. -/
def genTxIdLoop (env : TxIdEnv) (txs : List Transaction) :
    Nat → Nat → Except DBError Int
  | _, 0 => .error .idExhausted
  | attempts, fuel + 1 =>
    let c := candidateAt env attempts
    if env.checkFails attempts then genTxIdLoop env txs (attempts + 1) fuel
    else if usedTxId txs c then genTxIdLoop env txs (attempts + 1) fuel
    else .ok c

/-- Embedded from `transactionRepository.GenerateTransactionID`
(src/db/repository_manager.go): at most 10 attempts. -/
def GenerateTransactionID (env : TxIdEnv) (txs : List Transaction) :
    Except DBError Int :=
  genTxIdLoop env txs 0 10

/-- Embedded from `transactionRepository.Create` (src/db/repository_manager.go): take the
supplied external identifier or generate one, then insert an `Active` row
with the next internal sequence number, `start_time` and the bookkeeping
timestamps set to `CURRENT_TIMESTAMP`, `energy_delivered` zero. -/
def TxCreate (env : TxIdEnv) (s : DBState) (req : CreateTransactionRequest) :
    Except DBError (Transaction × DBState) :=
  let ocppId : Except DBError Int :=
    match req.transaction_id with
    | some v => .ok v
    | none => GenerateTransactionID env s.transactions
  match ocppId with
  | .error e => .error e
  | .ok ocpp =>
    let t : Transaction :=
      { id := s.nextTxId
        transaction_id := some ocpp
        charger_id := req.charger_id
        connector_id := req.connector_id
        id_tag := req.id_tag
        start_time := s.now
        stop_time := none
        meter_start := req.meter_start
        meter_stop := none
        energy_delivered := 0
        stop_reason := none
        status := "Active"
        created_at := s.now
        updated_at := s.now }
    .ok (t, { s with
      transactions := s.transactions ++ [t]
      nextTxId := s.nextTxId + 1 })

/-- Modelled from the spec: the Transaction Lifecycle `Start` operation of
spec section 4.5 is not under src/ (only the repository operations it calls
are).  Per the spec it "fails with `ConnectorBusy` if a transaction is
already Active on that (charger, connector) pair (read via 4.3's
active-by-connector query, inside the same atomic unit as the insert)"; on
success it inserts the row as Active via the repository `Create`. -/
def StartTransaction (env : TxIdEnv) (s : DBState)
    (req : CreateTransactionRequest) : Except DBError (Transaction × DBState) :=
  match GetActiveByConnector s req.charger_id req.connector_id with
  | .error e => .error e
  | .ok (some _) => .error .connectorBusy
  | .ok none => TxCreate env s req

/-- The stop meter used by orphan recovery: the last meter value recorded for
the connector, or the orphaned transaction's own start meter if none. -/
def recoveryStopMeter (s : DBState) (chargerID : String) (connectorID : Int)
    (old : Transaction) : Int :=
  match GetLatestByConnector s chargerID connectorID with
  | .ok (some mv) => mv.value
  | _ => old.meter_start

/-- Modelled from the spec: the orphan-recovery `Start` of spec section 4.5,
not under src/ (only the repository operations it calls are).  "Auto-close
the existing Active transaction using its own last known meter reading as the
stop reading, stop reason fixed to an `Other` sentinel, stop time set to now,
before proceeding to start the new one — both steps execute inside one atomic
unit", realised with the repository `GetActiveByConnector`,
`GetLatestByConnector`, `Stop` and `Create` operations as one state step. -/
def StartTransactionWithRecovery (env : TxIdEnv) (s : DBState)
    (req : CreateTransactionRequest) : Except DBError (Transaction × DBState) :=
  match GetActiveByConnector s req.charger_id req.connector_id with
  | .error e => .error e
  | .ok none => TxCreate env s req
  | .ok (some old) =>
    let stopMeter := recoveryStopMeter s req.charger_id req.connector_id old
    match TxStop s old.id stopMeter s.now "Other" with
    | .error e => .error e
    | .ok s1 => TxCreate env s1 req

/-- State of the schema-migration engine: the stored version (`0` encodes
golang-migrate's nil version, i.e. no migrations applied), the dirty marker,
and the highest migration script available on disk. -/
structure MigState where
  version : Nat
  dirty : Bool
  maxVersion : Nat
  deriving Repr, DecidableEq

/-- Modelled from the spec: `m.Force(v)` of the external golang-migrate
engine — unconditionally overwrites the stored version and clears dirty,
without running any script (spec section 4.1). -/
def mForce (v : Nat) (m : MigState) : MigState :=
  { m with version := v, dirty := false }

/-- Modelled from the spec: a successful `m.Up()` of the external
golang-migrate engine — applies all migrations with version greater than the
current one, in ascending order (spec section 4.1). -/
def mUp (m : MigState) : MigState :=
  { m with version := m.maxVersion }

/-- Modelled from the spec: a successful `m.Migrate(v)` of the external
golang-migrate engine — moves the schema to exactly version `v`. -/
def mMigrate (v : Nat) (m : MigState) : MigState :=
  { m with version := v }

/-- Modelled from the spec: a successful `m.Down()` of the external
golang-migrate engine — reverts every applied migration, down to version 0. -/
def mDown (m : MigState) : MigState :=
  { m with version := 0 }

/-- Embedded from `Database.RunMigrationsWithCallback` (src/db/database.go), success path:
read `(version, dirty)`; if dirty, force the current version (which clears
the dirty marker) and continue; then run `m.Up()`. -/
def RunMigrations (m : MigState) : Except DBError MigState :=
  let m1 := if m.dirty then mForce m.version m else m
  .ok (mUp m1)

/-- Embedded from `Database.MigrateDown` (src/db/database.go): nil version returns with
nothing to do; a dirty state is refused; otherwise the target is
`current - steps` floored at 0, reached via `m.Down()` or `m.Migrate`. -/
def MigrateDown (m : MigState) (steps : Int) : Except DBError MigState :=
  if m.version == 0 then .ok m
  else if m.dirty then .error .dirtyState
  else
    let target : Int := (m.version : Int) - steps
    let target := if target < 0 then 0 else target
    if target == 0 then .ok (mDown m) else .ok (mMigrate target.toNat m)

/-- Embedded from `Database.ForceMigrationVersion` (src/db/database.go): delegates to
`m.Force(version)`. -/
def ForceMigrationVersion (m : MigState) (version : Nat) : MigState :=
  mForce version m

/-- Number of Active transactions on one (charger, connector) pair. -/
def pairActiveCount (s : DBState) (chargerID : String) (connectorID : Int) : Nat :=
  (activeOnConnector s.transactions chargerID connectorID).length

/-- The single-active-session invariant: at most one Active transaction per
(charger, connector) pair. -/
def AtMostOneActive (s : DBState) : Prop :=
  ∀ chargerID connectorID, pairActiveCount s chargerID connectorID ≤ 1

/-- One observable step of a Start caller: the new state on success, the old
state unchanged on a rejected or failed Start. -/
def startStep (s : DBState) (r : TxIdEnv × CreateTransactionRequest) : DBState :=
  match StartTransaction r.1 s r.2 with
  | .ok (_, s') => s'
  | .error _ => s

/-- A sequence of Start calls, observed between steps. -/
def runStarts (s : DBState) (rs : List (TxIdEnv × CreateTransactionRequest)) :
    DBState :=
  rs.foldl startStep s

/- Concrete fixtures used by the witness theorems. -/

/-- Fixture: a determinate identifier-generation environment. -/
def envW : TxIdEnv := ⟨fun _ => 1, fun _ => 1, fun _ => 1, fun _ => false⟩

/-- Fixture: an Active transaction on (CP1, 1). -/
def txW : Transaction :=
  ⟨1, some 100, "CP1", 1, "abc", 5, none, 1000, none, 0, none, "Active", 5, 5⟩

/-- Fixture: a meter sample on (CP1, 1) reading 1500. -/
def mvW : MeterValue :=
  ⟨1, some 1, "CP1", 1, 7, "Energy.Active.Import.Register", 1500, "Wh",
    "", "", "", "", 7⟩

/-- Fixture: a charger row. -/
def chW : Charger :=
  ⟨"CP1", "Charger One", "ACME", "X1", "SN1", "1.0", "", "", "Available",
    true, none, none, none, none, none, 2, 2⟩

/-- Fixture: an already-resolved charger error (resolved at 5). -/
def errW : ChargerError := ⟨1, "CP1", some 1, "GroundFailure", "", "", "", 3, some 5, 3⟩

/-- Fixture: an unresolved charger error of the same code. -/
def errW2 : ChargerError := ⟨2, "CP1", some 1, "GroundFailure", "", "", "", 4, none, 4⟩

/-- Fixture: a populated database state at instant 20. -/
def baseW : DBState := ⟨[txW], [mvW], [errW, errW2], [chW], 2, 20⟩

/-- Fixture: an empty database state. -/
def emptyW : DBState := ⟨[], [], [], [], 1, 20⟩

/-- Fixture: a Start request for (CP1, 1) with a supplied external id. -/
def reqW : CreateTransactionRequest := ⟨some 200, "CP1", 1, "xyz", 2000⟩

/-- Fixture: `txW` after orphan recovery stopped it at instant 20 with the
latest meter reading 1500. -/
def txWStopped : Transaction :=
  ⟨1, some 100, "CP1", 1, "abc", 5, some 20, 1000, some 1500, 500,
    some "Other", "Completed", 5, 20⟩

/-- Fixture: the transaction created for `reqW` at instant 20. -/
def txWNew : Transaction :=
  ⟨2, some 200, "CP1", 1, "xyz", 20, none, 2000, none, 0, none, "Active", 20, 20⟩

/-- Fixture: `baseW` after a recovery Start for `reqW`. -/
def recoveredW : DBState :=
  ⟨[txWStopped, txWNew], [mvW], [errW, errW2], [chW], 3, 20⟩

/- Theorems. -/

/-- C3: for every Stop call on an existing transaction with starting meter
reading `t.meter_start`, the resulting row has delivered energy
`max 0 (meterStop - meter_start)` (clamped, never negative), the supplied
stop meter, stop time and stop reason, and status `Completed`. -/
theorem stop_writes_clamped_energy (s : DBState) (id : Nat) (meterStop : Int)
    (stopTime : Nat) (stopReason : String) (t : Transaction)
    (ht : s.transactions.find? (fun u => u.id == id) = some t) :
    ∃ s', TxStop s id meterStop stopTime stopReason = .ok s' ∧
      ∀ u ∈ s'.transactions, u.id = id →
        u.energy_delivered = max 0 (meterStop - t.meter_start) ∧
        u.meter_stop = some meterStop ∧ u.stop_time = some stopTime ∧
        u.stop_reason = some stopReason ∧ u.status = "Completed" := by
  unfold TxStop
  rw [ht]
  refine ⟨_, rfl, ?_⟩
  intro u hu huid
  simp only [List.mem_map] at hu
  obtain ⟨v, hv, rfl⟩ := hu
  unfold stopRow at huid ⊢
  by_cases h : (v.id == id) = true
  · rw [if_pos h]
    refine ⟨?_, rfl, rfl, rfl, rfl⟩
    dsimp only
    split <;> omega
  · rw [if_neg h] at huid
    exact absurd (beq_iff_eq.mpr huid) h

/-- Witness for C3 at a concrete state: stopping transaction 1 of `baseW`
(meter start 1000) at meter 1500. -/
theorem stop_writes_clamped_energy_witness :
    baseW.transactions.find? (fun u => u.id == 1) = some txW ∧
    ∃ s', TxStop baseW 1 1500 20 "Local" = .ok s' ∧
      ∀ u ∈ s'.transactions, u.id = 1 →
        u.energy_delivered = max 0 (1500 - txW.meter_start) ∧
        u.meter_stop = some 1500 ∧ u.stop_time = some 20 ∧
        u.stop_reason = some "Local" ∧ u.status = "Completed" :=
  ⟨rfl, stop_writes_clamped_energy baseW 1 1500 20 "Local" txW rfl⟩

/-- C10: when no row matches, the active-transaction-for-connector and
latest-meter-value-for-connector queries answer with an empty result and no
error, while `GetByID` reports a not-found error. -/
theorem absence_is_ok_none (s : DBState) (chargerID : String)
    (connectorID : Int) (id : Nat)
    (hact : activeOnConnector s.transactions chargerID connectorID = [])
    (hmv : s.meterValues.filter
      (fun mv => mv.charger_id == chargerID && mv.connector_id == connectorID) = [])
    (hid : s.transactions.find? (fun t => t.id == id) = none) :
    GetActiveByConnector s chargerID connectorID = .ok none ∧
    GetLatestByConnector s chargerID connectorID = .ok none ∧
    TxGetByID s id = .error (.txNotFound id) := by
  refine ⟨?_, ?_, ?_⟩
  · unfold GetActiveByConnector
    rw [hact]
    rfl
  · unfold GetLatestByConnector
    rw [hmv]
    rfl
  · unfold TxGetByID
    rw [hid]

/-- Witness for C10 on the empty state. -/
theorem absence_is_ok_none_witness :
    GetActiveByConnector emptyW "CP9" 1 = .ok none ∧
    GetLatestByConnector emptyW "CP9" 1 = .ok none ∧
    TxGetByID emptyW 7 = .error (.txNotFound 7) :=
  absence_is_ok_none emptyW "CP9" 1 7 rfl rfl rfl

/-- C9: the ORDER BY fragment built by the transaction `List` operation uses
a column from the fixed allow-list and a direction in ASC/DESC; a requested
column outside the allow-list is silently replaced by `created_at`, and any
other direction by `DESC`, so caller text never reaches the query string. -/
theorem list_orderby_allowlisted (opts : ListOptions) :
    (txListOrderClause opts).1 ∈ txListValidOrderFields ∧
    ((txListOrderClause opts).2 = "ASC" ∨ (txListOrderClause opts).2 = "DESC") ∧
    (opts.orderBy ∉ txListValidOrderFields →
      (txListOrderClause opts).1 = "created_at") ∧
    ((opts.sortDir ≠ "ASC" ∧ opts.sortDir ≠ "DESC") →
      (txListOrderClause opts).2 = "DESC") := by
  unfold txListOrderClause ValidateSortDirection
  refine ⟨?_, ?_, ?_, ?_⟩
  · by_cases h : (txListValidOrderFields.contains opts.orderBy) = true
    · rw [if_pos h]
      exact List.mem_of_elem_eq_true h
    · rw [if_neg h]
      show "created_at" ∈ txListValidOrderFields
      decide
  · by_cases h : (opts.sortDir != "ASC" && opts.sortDir != "DESC") = true
    · rw [if_pos h]
      right; rfl
    · rw [if_neg h]
      simp only [Bool.and_eq_true, bne_iff_ne, ne_eq, not_and_or, not_not] at h
      rcases h with h | h
      · left; exact h
      · right; exact h
  · intro hmem
    have h : ¬ (txListValidOrderFields.contains opts.orderBy) = true := by
      intro hc
      exact hmem (List.mem_of_elem_eq_true hc)
    rw [if_neg h]
  · intro ⟨h1, h2⟩
    have h : (opts.sortDir != "ASC" && opts.sortDir != "DESC") = true := by
      simp [bne_iff_ne, h1, h2]
    rw [if_pos h]

/-- Witness for C9: an injection attempt and a bad direction both collapse to
the safe defaults. -/
theorem list_orderby_allowlisted_witness :
    (txListOrderClause ⟨10, 0, "1; DROP TABLE", "sideways"⟩).1 = "created_at" ∧
    (txListOrderClause ⟨10, 0, "1; DROP TABLE", "sideways"⟩).2 = "DESC" := by
  have h := list_orderby_allowlisted ⟨10, 0, "1; DROP TABLE", "sideways"⟩
  exact ⟨h.2.2.1 (by decide), h.2.2.2 ⟨by decide, by decide⟩⟩

/-- Loop lemma for `GenerateTransactionID`: within `fuel` further attempts
starting at `attempts`, a success is a candidate from one of those attempts
that was free at check time, and if every one of those attempts collides or
fails its check the loop ends in the exhaustion error. -/
theorem genTxIdLoop_spec (env : TxIdEnv) (txs : List Transaction) :
    ∀ fuel attempts,
      (∀ c, genTxIdLoop env txs attempts fuel = .ok c →
        ∃ i, attempts ≤ i ∧ i < attempts + fuel ∧ env.checkFails i = false ∧
          c = candidateAt env i ∧ usedTxId txs c = false) ∧
      ((∀ i, attempts ≤ i → i < attempts + fuel →
          env.checkFails i = true ∨ usedTxId txs (candidateAt env i) = true) →
        genTxIdLoop env txs attempts fuel = .error .idExhausted) := by
  intro fuel
  induction fuel with
  | zero =>
    intro attempts
    constructor
    · intro c hc
      simp [genTxIdLoop] at hc
    · intro _
      rfl
  | succ fuel ih =>
    intro attempts
    constructor
    · intro c hc
      unfold genTxIdLoop at hc
      by_cases hf : env.checkFails attempts = true
      · rw [if_pos hf] at hc
        obtain ⟨i, h1, h2, h3, h4, h5⟩ := (ih (attempts + 1)).1 c hc
        exact ⟨i, by omega, by omega, h3, h4, h5⟩
      · rw [if_neg hf] at hc
        by_cases hu : usedTxId txs (candidateAt env attempts) = true
        · rw [if_pos hu] at hc
          obtain ⟨i, h1, h2, h3, h4, h5⟩ := (ih (attempts + 1)).1 c hc
          exact ⟨i, by omega, by omega, h3, h4, h5⟩
        · rw [if_neg hu] at hc
          refine ⟨attempts, le_refl _, by omega, ?_, ?_, ?_⟩
          · exact Bool.not_eq_true _ ▸ (Bool.of_not_eq_true hf)
          · cases hc
            rfl
          · cases hc
            exact Bool.of_not_eq_true hu
    · intro hall
      unfold genTxIdLoop
      by_cases hf : env.checkFails attempts = true
      · rw [if_pos hf]
        exact (ih (attempts + 1)).2 fun i hi1 hi2 => hall i (by omega) (by omega)
      · rw [if_neg hf]
        have hu : usedTxId txs (candidateAt env attempts) = true := by
          rcases hall attempts (le_refl _) (by omega) with h | h
          · exact absurd h hf
          · exact h
        rw [if_pos hu]
        exact (ih (attempts + 1)).2 fun i hi1 hi2 => hall i (by omega) (by omega)

/-- C4: `GenerateTransactionID` tries at most 10 candidates: a success is a
candidate produced by one of the first 10 attempts whose external id no
existing row carries at check time; if all 10 attempts collide or fail their
uniqueness check the result is the exhaustion error, not an endless retry. -/
theorem generate_txid_bounded (env : TxIdEnv) (txs : List Transaction) :
    (∀ c, GenerateTransactionID env txs = .ok c →
      ∃ i, i < 10 ∧ env.checkFails i = false ∧ c = candidateAt env i ∧
        usedTxId txs c = false) ∧
    ((∀ i, i < 10 →
        env.checkFails i = true ∨ usedTxId txs (candidateAt env i) = true) →
      GenerateTransactionID env txs = .error .idExhausted) := by
  have h := genTxIdLoop_spec env txs 10 0
  constructor
  · intro c hc
    obtain ⟨i, _, h2, h3, h4, h5⟩ := h.1 c hc
    exact ⟨i, by omega, h3, h4, h5⟩
  · intro hall
    exact h.2 fun i _ hi => hall i (by omega)

/-- Witness for C4: with every candidate forced to collide with the stored
external id 100 of `baseW`, generation exhausts its 10 attempts; with a free
candidate it succeeds on an unused identifier. -/
theorem generate_txid_bounded_witness :
    GenerateTransactionID ⟨fun _ => 0, fun _ => 100, fun _ => 100, fun _ => false⟩
      baseW.transactions = .error .idExhausted ∧
    (∃ i, i < 10 ∧ (envW.checkFails i = false) ∧
      (1001 : Int) = candidateAt envW i ∧
      usedTxId baseW.transactions 1001 = false) := by
  constructor
  · exact (generate_txid_bounded _ baseW.transactions).2 (by decide)
  · exact (generate_txid_bounded envW baseW.transactions).1 1001 rfl

/-- C5 counterexample: on a dirty store at version 1 (with migrations up to
version 2 available), `RunMigrations` does not fail with a dirty-state
error — it force-cleans the marker and applies the pending migrations. -/
theorem dirty_up_autoremediates_counterexample :
    RunMigrations ⟨1, true, 2⟩ = .ok ⟨2, false, 2⟩ ∧
    RunMigrations ⟨1, true, 2⟩ ≠ .error .dirtyState := by
  refine ⟨rfl, ?_⟩
  intro h
  exact Except.noConfusion h

/-- C5 (amended): while the store is dirty, `MigrateDown` fails with the
dirty-state error (the dirty marker only ever accompanies a nonzero recorded
version); but `Up` does not fail — `RunMigrations` auto-remediates by forcing
the stored version (which clears the dirty marker) and then applying all
pending migrations — and `ForceMigrationVersion` clears the marker too. -/
theorem dirty_state_handling (m : MigState) (steps : Int) (v : Nat)
    (hd : m.dirty = true) (hv : m.version ≠ 0) :
    MigrateDown m steps = .error .dirtyState ∧
    RunMigrations m = .ok ⟨m.maxVersion, false, m.maxVersion⟩ ∧
    (ForceMigrationVersion m v).dirty = false := by
  refine ⟨?_, ?_, rfl⟩
  · unfold MigrateDown
    rw [if_neg (show ¬ (m.version == 0) = true by simp [hv]), if_pos hd]
  · unfold RunMigrations
    rw [if_pos hd]
    rfl

/-- Witness for C5 at the concrete dirty store of the counterexample. -/
theorem dirty_state_handling_witness :
    MigrateDown ⟨1, true, 2⟩ 1 = .error .dirtyState ∧
    RunMigrations ⟨1, true, 2⟩ = .ok ⟨2, false, 2⟩ ∧
    (ForceMigrationVersion ⟨1, true, 2⟩ 1).dirty = false :=
  dirty_state_handling ⟨1, true, 2⟩ 1 1 rfl (by decide)

/-- C6: `MigrateDown n` fails with the dirty-state error when the dirty
marker is set (the marker only ever accompanies a nonzero recorded version),
and otherwise rolls the schema back from version v to exactly max(0, v-n),
here written with truncated natural subtraction. -/
theorem migrate_down_target (m : MigState) (n : Nat) :
    (m.dirty = true → m.version ≠ 0 → MigrateDown m n = .error .dirtyState) ∧
    (m.dirty = false →
      ∃ m', MigrateDown m n = .ok m' ∧ m'.version = m.version - n) := by
  constructor
  · intro hd hv
    unfold MigrateDown
    rw [if_neg (show ¬ (m.version == 0) = true by simp [hv]), if_pos hd]
  · intro hd
    unfold MigrateDown
    by_cases h0 : (m.version == 0) = true
    · rw [if_pos h0]
      have hz : m.version = 0 := by simpa using h0
      exact ⟨m, rfl, by omega⟩
    · rw [if_neg h0, if_neg (by simp [hd])]
      dsimp only
      by_cases hc : m.version ≤ n
      · by_cases hneg : ((m.version : Int) - n) < 0
        · rw [if_pos hneg, if_pos (show ((0:Int) == 0) = true from rfl)]
          exact ⟨mDown m, rfl, by simp only [mDown]; omega⟩
        · rw [if_neg hneg]
          have ht : (m.version : Int) - n = 0 := by omega
          rw [if_pos (beq_iff_eq.mpr ht)]
          exact ⟨mDown m, rfl, by simp only [mDown]; omega⟩
      · rw [if_neg (show ¬ ((m.version : Int) - n < 0) by omega)]
        rw [if_neg (show ¬ ((((m.version : Int) - n) == 0) = true) by
          rw [beq_iff_eq]; omega)]
        exact ⟨_, rfl, by simp only [mMigrate]; omega⟩

/-- Witness for C6: a dirty store refuses rollback; a clean store at version
3 asked to roll back 5 steps lands on version 0 = max(0, 3-5). -/
theorem migrate_down_target_witness :
    MigrateDown ⟨2, true, 3⟩ 1 = .error .dirtyState ∧
    ∃ m', MigrateDown ⟨3, false, 3⟩ 5 = .ok m' ∧ m'.version = 3 - 5 := by
  constructor
  · exact (migrate_down_target ⟨2, true, 3⟩ 1).1 rfl (by decide)
  · exact (migrate_down_target ⟨3, false, 3⟩ 5).2 rfl

/-- C8 counterexample: charger error 1 of `baseW` is already resolved at
instant 5, yet `Resolve(1, 9)` rewrites its resolution timestamp to 9 — the
single-row resolve path has no `resolved_at IS NULL` guard. -/
theorem resolve_overwrites_counterexample :
    errW.resolved_at = some 5 ∧
    ErrResolve baseW 1 9 =
      .ok ⟨[txW], [mvW],
        [⟨1, "CP1", some 1, "GroundFailure", "", "", "", 3, some 9, 3⟩, errW2],
        [chW], 2, 20⟩ :=
  ⟨rfl, rfl⟩

/-- C8 (amended): `ResolveByErrorCode` resolves only currently-unresolved
errors of that code for that charger — an already-resolved row survives
unchanged — and returns the count of rows it resolved; `Resolve(id, at)`,
however, sets the addressed row's `resolved_at` unconditionally, overwriting
any previously recorded resolution time. -/
theorem resolve_semantics (s : DBState) (chargerID errorCode : String)
    (ts id : Nat) :
    (ResolveByErrorCode s chargerID errorCode ts).1 =
      (s.chargerErrors.filter (unresolvedMatch chargerID errorCode)).length ∧
    (∀ e ∈ s.chargerErrors, ∀ r, e.resolved_at = some r →
      e ∈ (ResolveByErrorCode s chargerID errorCode ts).2.chargerErrors) ∧
    ((∃ e ∈ s.chargerErrors, e.id = id) →
      ∃ s', ErrResolve s id ts = .ok s' ∧
        ∀ e' ∈ s'.chargerErrors, e'.id = id → e'.resolved_at = some ts) := by
  refine ⟨rfl, ?_, ?_⟩
  · intro e he r hr
    unfold ResolveByErrorCode
    simp only [List.mem_map]
    refine ⟨e, he, ?_⟩
    rw [if_neg (show ¬ (unresolvedMatch chargerID errorCode e) = true by
      simp [unresolvedMatch, hr])]
  · intro ⟨e, he, heid⟩
    unfold ErrResolve
    have hany : (s.chargerErrors.any fun x => x.id == id) = true :=
      List.any_eq_true.mpr ⟨e, he, beq_iff_eq.mpr heid⟩
    rw [if_pos hany]
    refine ⟨_, rfl, ?_⟩
    intro e' he' heid'
    simp only [List.mem_map] at he'
    obtain ⟨v, hv, rfl⟩ := he'
    by_cases h : (v.id == id) = true
    · rw [if_pos h]
    · rw [if_neg h] at heid' ⊢
      exact absurd (beq_iff_eq.mpr heid') h

/-- Witness for C8 at `baseW`: the bulk path counts and resolves only the
unresolved error 2, keeps the already-resolved error 1 intact, and the
single-row path stamps error 2. -/
theorem resolve_semantics_witness :
    (ResolveByErrorCode baseW "CP1" "GroundFailure" 9).1 = 1 ∧
    errW ∈ (ResolveByErrorCode baseW "CP1" "GroundFailure" 9).2.chargerErrors ∧
    ∃ s', ErrResolve baseW 2 9 = .ok s' ∧
      ∀ e' ∈ s'.chargerErrors, e'.id = 2 → e'.resolved_at = some 9 := by
  have h := resolve_semantics baseW "CP1" "GroundFailure" 9 2
  refine ⟨?_, ?_, ?_⟩
  · rw [h.1]
    rfl
  · exact h.2.1 errW (by simp [baseW]) 5 rfl
  · exact h.2.2 ⟨errW2, by simp [baseW], rfl⟩

/-- C7: partial-update semantics of the transaction and charger
repositories: a request with no field set returns the stored row with the
state untouched (no column, `updated_at` included, is written) and no error
when the row exists; a request with at least one field set writes exactly the
supplied fields plus `updated_at`, preserving every unset field and every
non-updatable column. -/
theorem update_partial_semantics (s : DBState) (id : Nat) (cid : String)
    (req : UpdateTransactionRequest) (creq : UpdateChargerRequest)
    (t : Transaction) (c : Charger)
    (ht : s.transactions.find? (fun u => u.id == id) = some t)
    (hc : s.chargers.find? (fun u => u.id == cid) = some c) :
    (req.isEmpty = true → TxUpdate s id req = .ok (t, s)) ∧
    (creq.isEmpty = true → ChargerUpdate s cid creq = .ok (c, s)) ∧
    (req.isEmpty = false →
      ∃ u' s', TxUpdate s id req = .ok (u', s') ∧
        u'.updated_at = s.now ∧
        (∀ v, req.meter_stop = some v → u'.meter_stop = some v) ∧
        (req.meter_stop = none → u'.meter_stop = t.meter_stop) ∧
        (∀ v, req.stop_time = some v → u'.stop_time = some v) ∧
        (req.stop_time = none → u'.stop_time = t.stop_time) ∧
        (∀ v, req.energy_delivered = some v → u'.energy_delivered = v) ∧
        (req.energy_delivered = none →
          u'.energy_delivered = t.energy_delivered) ∧
        (∀ v, req.stop_reason = some v → u'.stop_reason = some v) ∧
        (req.stop_reason = none → u'.stop_reason = t.stop_reason) ∧
        (∀ v, req.status = some v → u'.status = v) ∧
        (req.status = none → u'.status = t.status) ∧
        u'.id = t.id ∧ u'.transaction_id = t.transaction_id ∧
        u'.charger_id = t.charger_id ∧ u'.connector_id = t.connector_id ∧
        u'.id_tag = t.id_tag ∧ u'.start_time = t.start_time ∧
        u'.meter_start = t.meter_start ∧ u'.created_at = t.created_at) ∧
    (creq.isEmpty = false →
      ∃ c' s', ChargerUpdate s cid creq = .ok (c', s') ∧
        c'.updated_at = s.now ∧
        c'.name = creq.name.getD c.name ∧
        c'.vendor = creq.vendor.getD c.vendor ∧
        c'.model = creq.model.getD c.model ∧
        c'.serial_number = creq.serial_number.getD c.serial_number ∧
        c'.firmware_version = creq.firmware_version.getD c.firmware_version ∧
        c'.iccid = creq.iccid.getD c.iccid ∧
        c'.imsi = creq.imsi.getD c.imsi ∧
        c'.status = creq.status.getD c.status ∧
        c'.is_connected = creq.is_connected.getD c.is_connected ∧
        c'.id = c.id ∧ c'.created_at = c.created_at ∧
        c'.last_heartbeat_at = c.last_heartbeat_at) := by
  refine ⟨?_, ?_, ?_, ?_⟩
  · intro he
    unfold TxUpdate
    rw [if_pos he]
    unfold TxGetByID
    rw [ht]
  · intro he
    unfold ChargerUpdate
    rw [if_pos he]
    unfold ChargerGetByID
    rw [hc]
  · intro he
    unfold TxUpdate
    rw [if_neg (by simp [he]), ht]
    refine ⟨applyTxUpdate req s.now t, _, rfl, rfl, ?_, ?_, ?_, ?_, ?_, ?_,
      ?_, ?_, ?_, ?_, rfl, rfl, rfl, rfl, rfl, rfl, rfl, rfl⟩
    · intro v hv
      simp [applyTxUpdate, hv]
    · intro hv
      simp [applyTxUpdate, hv]
    · intro v hv
      simp [applyTxUpdate, hv]
    · intro hv
      simp [applyTxUpdate, hv]
    · intro v hv
      simp [applyTxUpdate, hv]
    · intro hv
      simp [applyTxUpdate, hv]
    · intro v hv
      simp [applyTxUpdate, hv]
    · intro hv
      simp [applyTxUpdate, hv]
    · intro v hv
      simp [applyTxUpdate, hv]
    · intro hv
      simp [applyTxUpdate, hv]
  · intro he
    unfold ChargerUpdate
    rw [if_neg (by simp [he]), hc]
    exact ⟨applyChargerUpdate creq s.now c, _, rfl, rfl, rfl, rfl, rfl, rfl,
      rfl, rfl, rfl, rfl, rfl, rfl, rfl, rfl⟩

/-- Witness for C7 at `baseW`: the zero-field update of transaction 1 and of
charger CP1 returns the stored rows and the untouched state. -/
theorem update_partial_semantics_witness :
    TxUpdate baseW 1 {} = .ok (txW, baseW) ∧
    ChargerUpdate baseW "CP1" {} = .ok (chW, baseW) := by
  have h := update_partial_semantics baseW 1 "CP1" {} {} txW chW rfl rfl
  exact ⟨h.1 rfl, h.2.1 rfl⟩

/-- Answering `.ok none` is the same as the pair's Active filter being empty. -/
theorem getActive_none_iff (s : DBState) (chargerID : String)
    (connectorID : Int) :
    GetActiveByConnector s chargerID connectorID = .ok none ↔
      activeOnConnector s.transactions chargerID connectorID = [] := by
  unfold GetActiveByConnector
  cases hm : maxBy (fun x => x.start_time)
      (activeOnConnector s.transactions chargerID connectorID) with
  | none => exact ⟨fun _ => (maxBy_eq_none_iff _ _).1 hm, fun _ => rfl⟩
  | some t =>
    constructor
    · intro h
      exact absurd h (by simp)
    · intro h
      rw [h] at hm
      exact absurd hm (by simp [maxBy])

/-- The row answered by the active-by-connector query belongs to the pair's
Active filter. -/
theorem getActive_some_mem (s : DBState) (chargerID : String)
    (connectorID : Int) (t : Transaction)
    (h : GetActiveByConnector s chargerID connectorID = .ok (some t)) :
    t ∈ activeOnConnector s.transactions chargerID connectorID := by
  unfold GetActiveByConnector at h
  split at h
  · exact absurd h (by simp)
  · next u heq =>
    obtain rfl : u = t := by simpa using h
    exact maxBy_mem _ _ _ heq

/-- Inversion of a successful `Create`: the returned row is the freshly
numbered Active row for the request, appended to the transactions table. -/
theorem TxCreate_ok (env : TxIdEnv) (s : DBState)
    (req : CreateTransactionRequest) (t : Transaction) (s' : DBState)
    (h : TxCreate env s req = .ok (t, s')) :
    t.id = s.nextTxId ∧ t.charger_id = req.charger_id ∧
    t.connector_id = req.connector_id ∧ t.status = "Active" ∧
    t.start_time = s.now ∧ t.meter_start = req.meter_start ∧
    s'.transactions = s.transactions ++ [t] ∧
    s'.meterValues = s.meterValues ∧ s'.chargerErrors = s.chargerErrors ∧
    s'.chargers = s.chargers ∧ s'.nextTxId = s.nextTxId + 1 ∧
    s'.now = s.now := by
  unfold TxCreate at h
  split at h
  · simp only [Except.ok.injEq, Prod.mk.injEq] at h
    obtain ⟨rfl, rfl⟩ := h
    exact ⟨rfl, rfl, rfl, rfl, rfl, rfl, rfl, rfl, rfl, rfl, rfl, rfl⟩
  · rcases hg : GenerateTransactionID env s.transactions with e | ocpp
    · rw [hg] at h
      simp at h
    · rw [hg] at h
      simp only [Except.ok.injEq, Prod.mk.injEq] at h
      obtain ⟨rfl, rfl⟩ := h
      exact ⟨rfl, rfl, rfl, rfl, rfl, rfl, rfl, rfl, rfl, rfl, rfl, rfl⟩

/-- Inserting the row of a successful `Create` raises the Active count of its
own (charger, connector) pair by one and leaves every other pair's count
unchanged. -/
theorem pairActiveCount_create (env : TxIdEnv) (s : DBState)
    (req : CreateTransactionRequest) (t : Transaction) (s' : DBState)
    (h : TxCreate env s req = .ok (t, s')) (chargerID : String)
    (connectorID : Int) :
    pairActiveCount s' chargerID connectorID =
      pairActiveCount s chargerID connectorID +
        (if chargerID = req.charger_id ∧ connectorID = req.connector_id
          then 1 else 0) := by
  obtain ⟨_, hcp, hconn, hstatus, _, _, htxs, _⟩ :=
    TxCreate_ok env s req t s' h
  unfold pairActiveCount activeOnConnector
  rw [htxs, List.filter_append, List.length_append]
  by_cases hp : chargerID = req.charger_id ∧ connectorID = req.connector_id
  · obtain ⟨hp1, hp2⟩ := hp
    subst hp1
    subst hp2
    rw [if_pos ⟨rfl, rfl⟩]
    simp [List.filter_cons, hcp, hconn, hstatus]
  · rw [if_neg hp]
    have hfalse : (t.charger_id == chargerID && t.connector_id == connectorID &&
        t.status == "Active") = false := by
      rcases not_and_or.mp hp with hne | hne
      · have hb : (t.charger_id == chargerID) = false := by
          rw [hcp]
          exact beq_eq_false_iff_ne.mpr (fun hh => hne hh.symm)
        simp [hb]
      · have hb : (t.connector_id == connectorID) = false := by
          rw [hconn]
          exact beq_eq_false_iff_ne.mpr (fun hh => hne hh.symm)
        simp [hb]
    simp [List.filter_cons, hfalse]

/-- A state with at most one transaction row satisfies the single-active
invariant. -/
theorem atMostOne_of_short (s : DBState) (h : s.transactions.length ≤ 1) :
    AtMostOneActive s :=
  fun _ _ => le_trans (List.length_filter_le _ _) h

/-- One observed Start step preserves the single-active invariant: a rejected
Start leaves the state alone, and an accepted Start only inserts into a pair
whose Active filter was empty. -/
theorem startStep_preserves (s : DBState)
    (r : TxIdEnv × CreateTransactionRequest) (hs : AtMostOneActive s) :
    AtMostOneActive (startStep s r) := by
  unfold startStep
  cases hrun : StartTransaction r.1 s r.2 with
  | error e => exact hs
  | ok p =>
    obtain ⟨t, s'⟩ := p
    unfold StartTransaction at hrun
    split at hrun
    · exact absurd hrun (by simp)
    · exact absurd hrun (by simp)
    · next hnone =>
      intro chargerID connectorID
      rw [pairActiveCount_create r.1 s r.2 t s' hrun chargerID connectorID]
      by_cases hp : chargerID = r.2.charger_id ∧ connectorID = r.2.connector_id
      · rw [if_pos hp]
        obtain ⟨rfl, rfl⟩ := hp
        have h0 : activeOnConnector s.transactions r.2.charger_id
            r.2.connector_id = [] :=
          (getActive_none_iff s r.2.charger_id r.2.connector_id).1 hnone
        unfold pairActiveCount
        rw [h0]
        simp
      · rw [if_neg hp]
        have := hs chargerID connectorID
        omega

/-- C1 (spec-modelled Start, section 4.5 of the spec): over any sequence of
Start operations the single-active invariant is preserved — at most one
Active transaction per (charger, connector) pair at every observable
instant — and a Start issued while an Active transaction exists on the pair
fails with the connector-busy error instead of inserting a second Active
row. -/
theorem at_most_one_active_per_connector (s : DBState)
    (rs : List (TxIdEnv × CreateTransactionRequest))
    (hs : AtMostOneActive s) :
    AtMostOneActive (runStarts s rs) ∧
    (∀ env (req : CreateTransactionRequest) t,
      GetActiveByConnector s req.charger_id req.connector_id = .ok (some t) →
      StartTransaction env s req = .error .connectorBusy) := by
  constructor
  · unfold runStarts
    induction rs generalizing s with
    | nil => exact hs
    | cons r rs ih => exact ih _ (startStep_preserves s r hs)
  · intro env req t h
    unfold StartTransaction
    rw [h]

/-- Witness for C1: two identical Starts on the empty store leave at most one
Active row per pair, and a Start against `baseW` (which holds an Active
transaction on (CP1, 1)) is rejected as connector-busy. -/
theorem at_most_one_active_witness :
    AtMostOneActive (runStarts emptyW [(envW, reqW), (envW, reqW)]) ∧
    StartTransaction envW baseW reqW = .error .connectorBusy := by
  have h1 := at_most_one_active_per_connector emptyW [(envW, reqW), (envW, reqW)]
    (atMostOne_of_short emptyW (by decide))
  have h2 := at_most_one_active_per_connector baseW []
    (atMostOne_of_short baseW (by decide))
  exact ⟨h1.1, h2.2 envW reqW txW rfl⟩

/-- Two members of a list of length at most one coincide. -/
theorem eq_of_mem_of_length_le_one (l : List α) (a b : α)
    (hl : l.length ≤ 1) (ha : a ∈ l) (hb : b ∈ l) : a = b := by
  match l with
  | [] => simp at ha
  | [x] =>
    simp only [List.mem_singleton] at ha hb
    rw [ha, hb]
  | x :: y :: _ => simp at hl

/-- Inversion of a successful `Stop` on a found row: the transactions table
is rewritten row-wise with `stopRow`, everything else is unchanged. -/
theorem TxStop_ok (s : DBState) (id : Nat) (meterStop : Int) (stopTime : Nat)
    (stopReason : String) (u : Transaction)
    (hu : s.transactions.find? (fun v => v.id == id) = some u) :
    ∃ s1, TxStop s id meterStop stopTime stopReason = .ok s1 ∧
      s1.transactions = s.transactions.map
        (stopRow meterStop stopTime stopReason
          (if meterStop - u.meter_start < 0 then 0 else meterStop - u.meter_start)
          s.now id) ∧
      s1.nextTxId = s.nextTxId ∧ s1.now = s.now := by
  unfold TxStop
  rw [hu]
  exact ⟨_, rfl, rfl, rfl, rfl⟩

/-- C2 (spec-modelled orphan recovery, spec section 4.5): a Start on a pair
already holding an Active transaction auto-completes that transaction —
status Completed, stop reason the Other sentinel, stop time now, stop meter
the connector's latest recorded meter value (or the transaction's own start
meter when none was recorded) — and creates the new Active row in the same
atomic state step, so the post state shows exactly one Active transaction on
the pair, never zero or two. -/
theorem orphan_recovery_atomic (env : TxIdEnv) (s : DBState)
    (req : CreateTransactionRequest) (old t : Transaction) (s' : DBState)
    (hInv : AtMostOneActive s)
    (hIds : ∀ u ∈ s.transactions, u.id < s.nextTxId)
    (hold : GetActiveByConnector s req.charger_id req.connector_id =
      .ok (some old))
    (hrun : StartTransactionWithRecovery env s req = .ok (t, s')) :
    (∀ u ∈ s'.transactions, u.id = old.id →
      u.status = "Completed" ∧ u.stop_reason = some "Other" ∧
      u.stop_time = some s.now ∧
      u.meter_stop =
        some (recoveryStopMeter s req.charger_id req.connector_id old)) ∧
    pairActiveCount s' req.charger_id req.connector_id = 1 ∧
    t.status = "Active" ∧ t ∈ s'.transactions := by
  have holdPair := List.mem_filter.mp
    (getActive_some_mem s req.charger_id req.connector_id old hold)
  have hfindSome : (s.transactions.find? (fun v => v.id == old.id)).isSome := by
    rw [List.find?_isSome]
    exact ⟨old, holdPair.1, beq_self_eq_true _⟩
  obtain ⟨u, hu⟩ := Option.isSome_iff_exists.mp hfindSome
  unfold StartTransactionWithRecovery at hrun
  split at hrun
  · exact absurd hrun (by simp)
  · next heq =>
    rw [hold] at heq
    exact absurd heq (by simp)
  · next old1 heq =>
    rw [hold] at heq
    obtain rfl : old = old1 := by simpa using heq
    dsimp only at hrun
    obtain ⟨s1, hstop, hs1txs, hs1next, hs1now⟩ :=
      TxStop_ok s old.id (recoveryStopMeter s req.charger_id req.connector_id old)
        s.now "Other" u hu
    rw [hstop] at hrun
    replace hrun : TxCreate env s1 req = .ok (t, s') := hrun
    obtain ⟨htid, hcp, hconn, hstatus, _, _, htxs, _, _, _, _, _⟩ :=
      TxCreate_ok env s1 req t s' hrun
    rw [hs1txs] at htxs
    rw [hs1next] at htid
    have htne : t.id ≠ old.id := by
      have := hIds old holdPair.1
      omega
    refine ⟨?_, ?_, hstatus, ?_⟩
    · intro w hw hwid
      rw [htxs] at hw
      rcases List.mem_append.mp hw with hw | hw
      · simp only [List.mem_map] at hw
        obtain ⟨v, hv, rfl⟩ := hw
        unfold stopRow at hwid ⊢
        by_cases hvid : (v.id == old.id) = true
        · rw [if_pos hvid]
          exact ⟨rfl, rfl, rfl, rfl⟩
        · rw [if_neg hvid] at hwid
          exact absurd (beq_iff_eq.mpr hwid) hvid
      · rw [List.mem_singleton] at hw
        subst hw
        exact absurd hwid htne
    · unfold pairActiveCount activeOnConnector
      rw [htxs, List.filter_append]
      have hnil : (List.filter (fun v =>
          v.charger_id == req.charger_id && v.connector_id == req.connector_id &&
            v.status == "Active")
          (s.transactions.map
            (stopRow (recoveryStopMeter s req.charger_id req.connector_id old)
              s.now "Other"
              (if recoveryStopMeter s req.charger_id req.connector_id old -
                  u.meter_start < 0 then 0
                else recoveryStopMeter s req.charger_id req.connector_id old -
                  u.meter_start)
              s.now old.id))) = [] := by
        rw [List.filter_eq_nil_iff]
        intro w hw
        simp only [List.mem_map] at hw
        obtain ⟨v, hv, rfl⟩ := hw
        unfold stopRow
        by_cases hvid : (v.id == old.id) = true
        · rw [if_pos hvid]
          simp
        · rw [if_neg hvid]
          intro hpv
          have hvmem : v ∈ activeOnConnector s.transactions req.charger_id
              req.connector_id :=
            List.mem_filter.mpr ⟨hv, hpv⟩
          have hveq : v = old := eq_of_mem_of_length_le_one _ v old
            (hInv req.charger_id req.connector_id)
            hvmem
            (getActive_some_mem s req.charger_id req.connector_id old hold)
          exact absurd (beq_iff_eq.mpr (by rw [hveq])) hvid
      rw [hnil]
      have hone : (List.filter (fun v =>
          v.charger_id == req.charger_id && v.connector_id == req.connector_id &&
            v.status == "Active") [t]).length = 1 := by
        simp [List.filter_cons, hcp, hconn, hstatus]
      simpa using hone
    · rw [htxs]
      exact List.mem_append_right _ (List.mem_singleton.mpr rfl)

/-- Witness for C2: in `baseW` (Active transaction 1 on (CP1, 1), latest
meter reading 1500), a recovery Start for `reqW` completes transaction 1 with
stop reason Other and meter 1500, and leaves the new transaction as the
pair's only Active row. -/
theorem orphan_recovery_atomic_witness :
    StartTransactionWithRecovery envW baseW reqW = .ok (txWNew, recoveredW) ∧
    (∀ u ∈ recoveredW.transactions, u.id = txW.id →
      u.status = "Completed" ∧ u.stop_reason = some "Other" ∧
      u.stop_time = some baseW.now ∧
      u.meter_stop = some (recoveryStopMeter baseW "CP1" 1 txW)) ∧
    pairActiveCount recoveredW "CP1" 1 = 1 ∧
    txWNew.status = "Active" ∧ txWNew ∈ recoveredW.transactions := by
  have hrun : StartTransactionWithRecovery envW baseW reqW =
      .ok (txWNew, recoveredW) := rfl
  have h := orphan_recovery_atomic envW baseW reqW txW txWNew recoveredW
    (atMostOne_of_short baseW (by decide))
    (by decide)
    rfl
    hrun
  exact ⟨hrun, h.1, h.2.1, h.2.2.1, h.2.2.2⟩

end Levity









